import Mathlib

/-
Verification of the BondsTradingProject HTTP façade (src/api/app.py).

The repository is a thin Flask layer that translates JSON requests into smart
contract calls through a web3 client.  We embed the request handlers as pure
Lean functions over explicit inputs:

* the JSON request body is a finite association list of Python values;
* the blockchain client is an oracle (`Chain`) describing how each RPC call
  (gas estimation, transaction submission, receipt wait, checksum conversion)
  responds, where a `.error` result models the call raising an exception;
* each handler returns the HTTP response it produces together with the exact
  ordered list of contract interactions it performed (`List BCall`).

Machine integers do not matter here (Python ints are unbounded; Solidity-side
overflow lives on the external chain), so quantities are `Int`/`Nat`.
-/

/-- Python values as they appear in a parsed JSON request body or a response
body.  `PyVal.none` covers both an absent key (after `dict.get`) and an
explicit JSON `null`. -/
inductive PyVal where
  | none
  | int (n : Int)
  | str (s : String)
  | bool (b : Bool)
  | strList (xs : List String)
deriving DecidableEq

/-- Python truthiness, as used by `all([...])` and `not buyer_address` in
src/api/app.py. -/
def truthy : PyVal → Bool
  | PyVal.none => false
  | PyVal.int n => n ≠ 0
  | PyVal.str s => s ≠ ""
  | PyVal.bool b => b
  | PyVal.strList xs => ¬xs.isEmpty

/-- A request body: association list from field name to value. -/
def ReqBody := List (String × PyVal)

/-- Models `data.get(k)`: the value stored under `k`, or Python `None` when
the key is absent. -/
def pyGet (data : ReqBody) (k : String) : PyVal :=
  (List.lookup k data).getD PyVal.none

/-- Value of a non-empty run of decimal digits, `Option.none` on an empty
list or any non-digit character. -/
def digitsVal (cs : List Char) : Option Nat :=
  if cs.isEmpty then Option.none
  else if cs.all Char.isDigit then
    some (cs.foldl (fun a c => a * 10 + (c.toNat - 48)) 0)
  else Option.none

/-- Decimal integer parsing for Python `int(str)`: an optional sign followed
by at least one digit; anything else raises (here: `Option.none`). -/
def parseIntChars : List Char → Option Int
  | '-' :: rest => (digitsVal rest).map (fun n => -(n : Int))
  | '+' :: rest => (digitsVal rest).map (fun n => (n : Int))
  | l => (digitsVal l).map (fun n => (n : Int))

/-- Models Python `int(v)`: `some` of the converted integer when the call
succeeds, `Option.none` when it raises (`ValueError`/`TypeError`).  Strings
convert through decimal parsing with an optional leading sign, which matches
Python on every input this development evaluates; `int(True) = 1`,
`int(None)` raises. -/
def pyInt : PyVal → Option Int
  | PyVal.int n => some n
  | PyVal.str s => parseIntChars s.data
  | PyVal.bool b => some (if b then 1 else 0)
  | _ => Option.none

/-- The `str(e)` message of the exception Python `int(v)` raises on a
non-convertible value, as embedded by the handlers' outer `except` clause. -/
def pyIntErrMsg : PyVal → String
  | PyVal.str s => "invalid literal for int() with base 10: " ++ s
  | _ => "int() argument must be a string, a bytes-like object or a real number"

/-- A transaction hash as returned by the client library: either raw Python
bytes, or a HexBytes-style object whose `hex()` carries a `0x` prefix.  Each
byte is a `Nat`; only its value modulo 256 is meaningful. -/
inductive TxHash where
  | raw (bytes : List Nat)
  | hexBytes (bytes : List Nat)
deriving DecidableEq

/-- Lowercase hex digit for a nibble value (0–15). -/
def nibbleChar : Nat → Char
  | 0 => '0' | 1 => '1' | 2 => '2' | 3 => '3' | 4 => '4'
  | 5 => '5' | 6 => '6' | 7 => '7' | 8 => '8' | 9 => '9'
  | 10 => 'a' | 11 => 'b' | 12 => 'c' | 13 => 'd' | 14 => 'e' | _ => 'f'

/-- Hex encoding of a byte string, two lowercase digits per byte, as produced
by Python `bytes.hex()`. -/
def bytesToHexChars : List Nat → List Char
  | [] => []
  | b :: bs => nibbleChar (b / 16 % 16) :: nibbleChar (b % 16) :: bytesToHexChars bs

/-- Models `tx_hash.hex() if hasattr(tx_hash, "hex") else str(tx_hash)`
(src/api/app.py line 287 and its copies): both hash representations carry a
`hex` method, raw bytes yielding bare lowercase hex and the object form
yielding `0x`-prefixed lowercase hex. -/
def txHashStr : TxHash → String
  | TxHash.raw bs => String.mk (bytesToHexChars bs)
  | TxHash.hexBytes bs => "0x" ++ String.mk (bytesToHexChars bs)

/-- A character that may appear in a lowercase hexadecimal rendering. -/
def isLowerHexDigit (c : Char) : Bool :=
  ('0' ≤ c ∧ c ≤ '9') ∨ ('a' ≤ c ∧ c ≤ 'f')

/-- Character-list form of `isLowerHexString`: all lowercase hex digits after
an optional literal `0x` prefix. -/
def lowerHexChars : List Char → Bool
  | '0' :: 'x' :: rest => rest.all isLowerHexDigit
  | l => l.all isLowerHexDigit

/-- A lowercase hexadecimal string: all lowercase hex digits, optionally
preceded by the literal prefix `0x`. -/
def isLowerHexString (s : String) : Bool :=
  lowerHexChars s.data

theorem nibbleChar_lower (n : Nat) : isLowerHexDigit (nibbleChar n) = true := by
  unfold nibbleChar
  split <;> decide

theorem bytesToHexChars_lower (bs : List Nat) :
    (bytesToHexChars bs).all isLowerHexDigit = true := by
  induction bs with
  | nil => rfl
  | cons b bs ih =>
      simp [bytesToHexChars, List.all_cons, nibbleChar_lower, ih]

theorem lowerHexChars_of_all (l : List Char) (h : l.all isLowerHexDigit = true) :
    lowerHexChars l = true := by
  unfold lowerHexChars
  split
  · simp_all [List.all_cons]
  · exact h

theorem txHashStr_lowerHex (h : TxHash) : isLowerHexString (txHashStr h) = true := by
  cases h with
  | raw bs => exact lowerHexChars_of_all _ (bytesToHexChars_lower bs)
  | hexBytes bs =>
      show lowerHexChars ('0' :: 'x' :: bytesToHexChars bs) = true
      show (bytesToHexChars bs).all isLowerHexDigit = true
      exact bytesToHexChars_lower bs

/-- A successfully decoded BondIssued event exposes its `bondId` argument;
`decodeBondIssued` is the outcome of
`contract.events.BondIssued().process_log(log)` on this log entry: `some`
of the decoded bondId when it succeeds, `Option.none` when it raises. -/
structure LogEntry where
  decodeBondIssued : Option Int
deriving DecidableEq

/-- A transaction receipt: the numeric status field (1 on success) and the
emitted log entries. -/
structure Receipt where
  status : Nat
  logs : List LogEntry
deriving DecidableEq

/-- An unsent bound contract-function call object, as built by
`contract.functions.<name>(...)`.  Constructor argument order mirrors the
declared contract interface:
`issueBond(name, issuer, faceValue, maturityDate, interestRate, supply)`,
`purchaseBond(bondId, amount)`, `sellBond(bondId, amount, buyerAddress)`,
`redeemBond(bondId, amount)`.  String-typed parameters carry the raw request
value (the handlers pass them through unconverted). -/
inductive ContractFn where
  | issueBond (name issuer : PyVal)
      (faceValue maturityDate interestRate supply : Int)
  | purchaseBond (bondId amount : Int)
  | sellBond (bondId amount : Int) (buyerAddress : String)
  | redeemBond (bondId amount : Int)
deriving DecidableEq

/-- One contract interaction performed by a handler, in the order it happens:
building the call object, estimating gas with a sender account, submitting
with sender and gas, waiting for a receipt, and attempting to decode one
receipt log as a BondIssued event. -/
inductive BCall where
  | buildFn (f : ContractFn)
  | estimateGas (f : ContractFn) (sender : String)
  | transact (f : ContractFn) (sender : String) (gas : Nat)
  | waitForReceipt (h : TxHash)
  | decodeLog (l : LogEntry)
deriving DecidableEq

/-- Whether a contract interaction is a blockchain RPC call (call-object
construction and local event decoding are not). -/
def isRpc : BCall → Bool
  | BCall.estimateGas _ _ => true
  | BCall.transact _ _ _ => true
  | BCall.waitForReceipt _ => true
  | _ => false

/-- The blockchain client's behaviour, one field per operation the handlers
use.  An `Except.error` result models the operation raising an exception with
that message; `to_checksum_address` returning `Option.none` models a raise on
an invalid address. -/
structure Chain where
  estimate_gas : ContractFn → String → Except String Nat
  transact : ContractFn → String → Nat → Except String TxHash
  wait_for_transaction_receipt : TxHash → Except String Receipt
  to_checksum_address : PyVal → Option String

/-- An HTTP response: status code and JSON body as an association list. -/
structure HttpResponse where
  status : Nat
  body : List (String × PyVal)
deriving DecidableEq

/-- The 500 response every handler returns when the cached client or contract
binding is absent (src/api/app.py lines 247-249 and copies). -/
def connErrResp : HttpResponse :=
  ⟨500, [("error", PyVal.str "Failed to connect to blockchain or contract")]⟩

/-- The 400 response for a missing required field. -/
def missingParamsResp : HttpResponse :=
  ⟨400, [("error", PyVal.str "Missing required parameters")]⟩

/-- The 500 response produced when `int(v)` raises inside a handler body and
the outer `except` clause turns the exception into `{"error": str(e)}`. -/
def valueErrorResp (v : PyVal) : HttpResponse :=
  ⟨500, [("error", PyVal.str (pyIntErrMsg v))]⟩

/-- The 500 response of the inner `except` around the estimate/submit/confirm
sequence. -/
def txFailResp (e : String) : HttpResponse :=
  ⟨500, [("error", PyVal.str ("Smart contract transaction failed: " ++ e))]⟩

/-- The 500 response for a receipt whose status is not success. -/
def revertedResp : HttpResponse :=
  ⟨500, [("error", PyVal.str "Transaction failed on blockchain")]⟩

/-- The BondIssued decoding loop of the issuance handler (src/api/app.py
lines 290-302): walk the receipt logs in order, attempt to decode each, stop
at the first success.  Returns the decode attempts made and the resulting
`bondId` response value (the decoded id, or the sentinel string `"Unknown"`
when the receipt has no logs or none decodes). -/
def decodeAttempts : List LogEntry → List BCall × PyVal
  | [] => ([], PyVal.str "Unknown")
  | l :: ls =>
      match l.decodeBondIssued with
      | some bid => ([BCall.decodeLog l], PyVal.int bid)
      | Option.none =>
          let r := decodeAttempts ls
          (BCall.decodeLog l :: r.1, r.2)

/-- The transaction-submission block the four mutating handlers repeat
verbatim (src/api/app.py lines 274-287, 343-356, 405-418, 461-474): build the
call object, estimate gas from the default account, submit with the estimate,
wait for the receipt, fail with a 500 when the receipt status is not 1, and
normalize the hash.  Returns the error response or the normalized hash string
with the receipt, together with the contract interactions performed. -/
def runTx (ch : Chain) (acct : String) (f : ContractFn) :
    Except HttpResponse (String × Receipt) × List BCall :=
  match ch.estimate_gas f acct with
  | Except.error e =>
      (Except.error (txFailResp e), [BCall.buildFn f, BCall.estimateGas f acct])
  | Except.ok gas =>
      match ch.transact f acct gas with
      | Except.error e =>
          (Except.error (txFailResp e),
           [BCall.buildFn f, BCall.estimateGas f acct, BCall.transact f acct gas])
      | Except.ok h =>
          match ch.wait_for_transaction_receipt h with
          | Except.error e =>
              (Except.error (txFailResp e),
               [BCall.buildFn f, BCall.estimateGas f acct, BCall.transact f acct gas,
                BCall.waitForReceipt h])
          | Except.ok r =>
              if r.status ≠ 1 then
                (Except.error revertedResp,
                 [BCall.buildFn f, BCall.estimateGas f acct, BCall.transact f acct gas,
                  BCall.waitForReceipt h])
              else
                (Except.ok (txHashStr h, r),
                 [BCall.buildFn f, BCall.estimateGas f acct, BCall.transact f acct gas,
                  BCall.waitForReceipt h])

/-- The /bond/issue handler (src/api/app.py lines 242-316).  `w3Live` and
`contractLive` say whether the cached client and contract binding are
present; `acct` is `w3.eth.default_account`; `data` the parsed JSON body. -/
def issue_bond (w3Live contractLive : Bool) (ch : Chain) (acct : String)
    (data : ReqBody) : HttpResponse × List BCall :=
  if ¬w3Live ∨ ¬contractLive then (connErrResp, [])
  else
    if ¬(truthy (pyGet data "name") ∧ truthy (pyGet data "issuer") ∧
         pyGet data "faceValue" ≠ PyVal.none ∧ pyGet data "maturityDate" ≠ PyVal.none ∧
         pyGet data "interestRate" ≠ PyVal.none ∧ pyGet data "supply" ≠ PyVal.none) then
      (missingParamsResp, [])
    else
      match pyInt (pyGet data "faceValue") with
      | Option.none => (valueErrorResp (pyGet data "faceValue"), [])
      | some face_value =>
        match pyInt (pyGet data "maturityDate") with
        | Option.none => (valueErrorResp (pyGet data "maturityDate"), [])
        | some maturity_date =>
          match pyInt (pyGet data "interestRate") with
          | Option.none => (valueErrorResp (pyGet data "interestRate"), [])
          | some interest_rate =>
            match pyInt (pyGet data "supply") with
            | Option.none => (valueErrorResp (pyGet data "supply"), [])
            | some supply =>
              match runTx ch acct (ContractFn.issueBond (pyGet data "name")
                  (pyGet data "issuer") face_value maturity_date interest_rate supply) with
              | (Except.error resp, tr) => (resp, tr)
              | (Except.ok (hs, rcpt), tr) =>
                  let d := decodeAttempts rcpt.logs
                  (⟨201, [("message", PyVal.str "Bond issued successfully"),
                          ("tx_hash", PyVal.str hs),
                          ("bondId", d.2)]⟩, tr ++ d.1)

/-- The /bond/purchase handler (src/api/app.py lines 318-371). -/
def purchase_bond (w3Live contractLive : Bool) (ch : Chain) (acct : String)
    (data : ReqBody) : HttpResponse × List BCall :=
  if ¬w3Live ∨ ¬contractLive then (connErrResp, [])
  else
    if pyGet data "bondId" = PyVal.none ∨ pyGet data "amount" = PyVal.none then
      (missingParamsResp, [])
    else
      match pyInt (pyGet data "bondId") with
      | Option.none => (valueErrorResp (pyGet data "bondId"), [])
      | some bond_id =>
        match pyInt (pyGet data "amount") with
        | Option.none => (valueErrorResp (pyGet data "amount"), [])
        | some amount =>
          match runTx ch acct (ContractFn.purchaseBond bond_id amount) with
          | (Except.error resp, tr) => (resp, tr)
          | (Except.ok (hs, _), tr) =>
              (⟨200, [("message", PyVal.str "Bond purchased successfully"),
                      ("tx_hash", PyVal.str hs),
                      ("bondId", PyVal.int bond_id),
                      ("amount", PyVal.int amount)]⟩, tr)

/-- The /bond/sell handler (src/api/app.py lines 373-434).  Checksum
conversion of the buyer address happens after the integer conversions and
before the call object is built; a conversion failure yields a 400. -/
def sell_bond (w3Live contractLive : Bool) (ch : Chain) (acct : String)
    (data : ReqBody) : HttpResponse × List BCall :=
  if ¬w3Live ∨ ¬contractLive then (connErrResp, [])
  else
    if pyGet data "bondId" = PyVal.none ∨ pyGet data "amount" = PyVal.none ∨
       ¬truthy (pyGet data "buyerAddress") then
      (missingParamsResp, [])
    else
      match pyInt (pyGet data "bondId") with
      | Option.none => (valueErrorResp (pyGet data "bondId"), [])
      | some bond_id =>
        match pyInt (pyGet data "amount") with
        | Option.none => (valueErrorResp (pyGet data "amount"), [])
        | some amount =>
          match ch.to_checksum_address (pyGet data "buyerAddress") with
          | Option.none =>
              (⟨400, [("error", PyVal.str "Invalid buyer address format")]⟩, [])
          | some buyer_address =>
            match runTx ch acct (ContractFn.sellBond bond_id amount buyer_address) with
            | (Except.error resp, tr) => (resp, tr)
            | (Except.ok (hs, _), tr) =>
                (⟨200, [("message", PyVal.str "Bond sold successfully"),
                        ("tx_hash", PyVal.str hs),
                        ("bondId", PyVal.int bond_id),
                        ("amount", PyVal.int amount),
                        ("buyerAddress", PyVal.str buyer_address)]⟩, tr)

/-- The /bond/redeem handler (src/api/app.py lines 436-489). -/
def redeem_bond (w3Live contractLive : Bool) (ch : Chain) (acct : String)
    (data : ReqBody) : HttpResponse × List BCall :=
  if ¬w3Live ∨ ¬contractLive then (connErrResp, [])
  else
    if pyGet data "bondId" = PyVal.none ∨ pyGet data "amount" = PyVal.none then
      (missingParamsResp, [])
    else
      match pyInt (pyGet data "bondId") with
      | Option.none => (valueErrorResp (pyGet data "bondId"), [])
      | some bond_id =>
        match pyInt (pyGet data "amount") with
        | Option.none => (valueErrorResp (pyGet data "amount"), [])
        | some amount =>
          match runTx ch acct (ContractFn.redeemBond bond_id amount) with
          | (Except.error resp, tr) => (resp, tr)
          | (Except.ok (hs, _), tr) =>
              (⟨200, [("message", PyVal.str "Bond redeemed successfully"),
                      ("tx_hash", PyVal.str hs),
                      ("bondId", PyVal.int bond_id),
                      ("amount", PyVal.int amount)]⟩, tr)

/-- The configuration an HTTP provider (and hence a client) is built from:
endpoint URL and request timeout in seconds.  A client is identified with the
configuration that produced it. -/
structure ProviderCfg where
  url : String
  timeout : Nat
deriving DecidableEq

/-- Models `connect_to_blockchain` (src/api/app.py lines 43-65).  `isConn cfg`
is the result of `is_connected()` on a client built from `cfg`; web3's HTTP
provider reports connection failures, timeouts included, by returning `False`
from `is_connected` rather than raising.  Returns the connected client if
any, the ordered list of connection attempts made, and the log messages
emitted.  The Python body is wrapped in a `try`/`except` that returns `None`,
so the function never raises to its caller — mirrored here by totality. -/
def connect_to_blockchain (primary fallback : String)
    (isConn : ProviderCfg → Bool) :
    Option ProviderCfg × List ProviderCfg × List String :=
  let p : ProviderCfg := ⟨primary, 30⟩
  let logs0 := ["Connecting to blockchain at " ++ primary]
  if isConn p then
    (some p, [p], logs0 ++ ["Successfully connected to blockchain"])
  else
    let d : ProviderCfg := ⟨fallback, 30⟩
    let logs1 := logs0 ++
      ["Failed to connect to " ++ primary ++ ", trying default provider"]
    if isConn d then
      (some d, [p, d], logs1 ++ ["Successfully connected to default provider"])
    else
      (Option.none, [p, d],
       logs1 ++ ["Blockchain connection error: Failed to connect to blockchain"])

/-- The process-wide connection state: the cached client and the cached
contract binding (src/api/app.py lines 22-24). -/
structure GState (C K : Type) where
  w3 : Option C
  contract : Option K
deriving DecidableEq

/-- The two shapes the specification asserts for the connection state: a full
(client, contract binding) pair or (none, none). -/
def twoShaped {C K : Type} (st : GState C K) : Prop :=
  (st.w3.isSome ∧ st.contract.isSome) ∨ (st.w3.isNone ∧ st.contract.isNone)

/-- Models `ensure_connection` (src/api/app.py lines 26-40), the
`before_request` hook.  `cfg` is whether CONTRACT_ADDRESS is configured,
`is_conn c` the cached client's `is_connected()` probe (production clients
always carry the attribute), `connectResult` the outcome of
`connect_to_blockchain()` for this request, and `mkContract` the
`w3.eth.contract(address=..., abi=...)` constructor. -/
def ensure_connection {C K : Type} (cfg : Bool) (is_conn : C → Bool)
    (connectResult : Option C) (mkContract : C → K)
    (st : GState C K) : GState C K :=
  if cfg then
    let w3' : Option C :=
      match st.w3 with
      | Option.none => connectResult
      | some c => if is_conn c then some c else connectResult
    let contract' : Option K :=
      match st.contract with
      | some k => some k
      | Option.none =>
          match w3' with
          | some c => some (mkContract c)
          | Option.none => Option.none
    ⟨w3', contract'⟩
  else st

/-- Outcome of probing the cached client in the /status handler: the
`is_connected()` call can return a boolean or raise. -/
inductive ProbeResult where
  | value (b : Bool)
  | raises
deriving DecidableEq

/-- Models `get_api_status` (src/api/app.py lines 621-649).  `w3Cached` says
whether a client is cached, `probe` what its `is_connected()` does,
`contractCached` whether a contract binding is cached, `addr` the configured
CONTRACT_ADDRESS (empty string when unset, which is falsy in Python). -/
def get_api_status (w3Cached : Bool) (probe : ProbeResult)
    (contractCached : Bool) (addr : String) : HttpResponse :=
  let blockchain_connected : Bool :=
    if w3Cached then
      match probe with
      | ProbeResult.value b => b
      | ProbeResult.raises => false
    else false
  ⟨200, [("status", PyVal.str "API is running"),
         ("blockchain_connected", PyVal.bool blockchain_connected),
         ("contract_deployed", PyVal.bool contractCached),
         ("contract_address", PyVal.str (if addr ≠ "" then addr else "Not configured")),
         ("endpoints", PyVal.strList
            ["/health", "/status", "/contract/address", "/bond/issue",
             "/bond/purchase", "/bond/sell", "/bond/redeem", "/bond/count",
             "/bond/<bond_id>/info", "/bond/<bond_id>/holders",
             "/bond/<bond_id>/holder/<holder_address>/amount"])]⟩

/-- The response value the issuance handler reports as `bondId` for a given
log list: the first log that decodes as BondIssued contributes its id,
otherwise the sentinel string `"Unknown"`. -/
def bondIdOf (logs : List LogEntry) : PyVal :=
  match logs.findSome? (fun l => l.decodeBondIssued) with
  | some bid => PyVal.int bid
  | Option.none => PyVal.str "Unknown"

theorem decodeAttempts_snd (logs : List LogEntry) :
    (decodeAttempts logs).2 = bondIdOf logs := by
  induction logs with
  | nil => rfl
  | cons l ls ih =>
      unfold decodeAttempts bondIdOf
      cases hl : l.decodeBondIssued with
      | some bid => simp [List.findSome?_cons, hl]
      | none =>
          simp only [List.findSome?_cons, hl]
          exact ih

theorem decodeAttempts_fst_no_rpc (logs : List LogEntry) :
    ∀ c ∈ (decodeAttempts logs).1, isRpc c = false := by
  induction logs with
  | nil => intro c hc; cases hc
  | cons l ls ih =>
      unfold decodeAttempts
      cases hl : l.decodeBondIssued with
      | some bid =>
          intro c hc
          simp only [List.mem_singleton] at hc
          subst hc; rfl
      | none =>
          intro c hc
          simp only [List.mem_cons] at hc
          rcases hc with hc | hc
          · subst hc; rfl
          · exact ih c hc

theorem decodeAttempts_fst_only_decodes (logs : List LogEntry) :
    ∀ c ∈ (decodeAttempts logs).1, ∃ l, c = BCall.decodeLog l := by
  induction logs with
  | nil => intro c hc; cases hc
  | cons l ls ih =>
      unfold decodeAttempts
      cases hl : l.decodeBondIssued with
      | some bid =>
          intro c hc
          simp only [List.mem_singleton] at hc
          exact ⟨l, hc⟩
      | none =>
          intro c hc
          simp only [List.mem_cons] at hc
          rcases hc with hc | hc
          · exact ⟨l, hc⟩
          · exact ih c hc

theorem runTx_ok (ch : Chain) (acct : String) (f : ContractFn) (g : Nat)
    (h : TxHash) (r : Receipt)
    (hest : ch.estimate_gas f acct = Except.ok g)
    (htx : ch.transact f acct g = Except.ok h)
    (hw : ch.wait_for_transaction_receipt h = Except.ok r)
    (hst : r.status = 1) :
    runTx ch acct f =
      (Except.ok (txHashStr h, r),
       [BCall.buildFn f, BCall.estimateGas f acct, BCall.transact f acct g,
        BCall.waitForReceipt h]) := by
  simp [runTx, hest, htx, hw, hst]

theorem runTx_reverted (ch : Chain) (acct : String) (f : ContractFn) (g : Nat)
    (h : TxHash) (r : Receipt)
    (hest : ch.estimate_gas f acct = Except.ok g)
    (htx : ch.transact f acct g = Except.ok h)
    (hw : ch.wait_for_transaction_receipt h = Except.ok r)
    (hst : r.status ≠ 1) :
    runTx ch acct f =
      (Except.error revertedResp,
       [BCall.buildFn f, BCall.estimateGas f acct, BCall.transact f acct g,
        BCall.waitForReceipt h]) := by
  simp [runTx, hest, htx, hw, hst]

theorem runTx_trace (ch : Chain) (acct : String) (f : ContractFn) (g : Nat)
    (h : TxHash)
    (hest : ch.estimate_gas f acct = Except.ok g)
    (htx : ch.transact f acct g = Except.ok h) :
    (runTx ch acct f).2 =
      [BCall.buildFn f, BCall.estimateGas f acct, BCall.transact f acct g,
       BCall.waitForReceipt h] := by
  cases hw : ch.wait_for_transaction_receipt h with
  | error e => simp [runTx, hest, htx, hw]
  | ok r =>
      by_cases hst : r.status = 1
      · simp [runTx, hest, htx, hw, hst]
      · simp [runTx, hest, htx, hw, hst]

theorem runTx_build_head (ch : Chain) (acct : String) (f : ContractFn) :
    ∃ rest, (runTx ch acct f).2 = BCall.buildFn f :: rest := by
  cases hest : ch.estimate_gas f acct with
  | error e => exact ⟨[BCall.estimateGas f acct], by simp [runTx, hest]⟩
  | ok g =>
      cases htx : ch.transact f acct g with
      | error e =>
          exact ⟨[BCall.estimateGas f acct, BCall.transact f acct g],
            by simp [runTx, hest, htx]⟩
      | ok h =>
          cases hw : ch.wait_for_transaction_receipt h with
          | error e =>
              exact ⟨[BCall.estimateGas f acct, BCall.transact f acct g,
                BCall.waitForReceipt h], by simp [runTx, hest, htx, hw]⟩
          | ok r =>
              by_cases hst : r.status = 1
              · exact ⟨[BCall.estimateGas f acct, BCall.transact f acct g,
                  BCall.waitForReceipt h], by simp [runTx, hest, htx, hw, hst]⟩
              · exact ⟨[BCall.estimateGas f acct, BCall.transact f acct g,
                  BCall.waitForReceipt h], by simp [runTx, hest, htx, hw, hst]⟩

theorem runTx_error_status (ch : Chain) (acct : String) (f : ContractFn)
    (resp : HttpResponse) (hres : (runTx ch acct f).1 = Except.error resp) :
    resp.status = 500 := by
  cases hest : ch.estimate_gas f acct with
  | error e => simp [runTx, hest] at hres; rw [← hres]; rfl
  | ok g =>
      cases htx : ch.transact f acct g with
      | error e => simp [runTx, hest, htx] at hres; rw [← hres]; rfl
      | ok h =>
          cases hw : ch.wait_for_transaction_receipt h with
          | error e => simp [runTx, hest, htx, hw] at hres; rw [← hres]; rfl
          | ok r =>
              by_cases hst : r.status = 1
              · simp [runTx, hest, htx, hw, hst] at hres
              · simp [runTx, hest, htx, hw, hst] at hres; rw [← hres]; rfl

theorem purchase_bond_validated (ch : Chain) (acct : String) (data : ReqBody)
    (bid amt : Int)
    (h1 : pyGet data "bondId" ≠ PyVal.none)
    (h2 : pyGet data "amount" ≠ PyVal.none)
    (h3 : pyInt (pyGet data "bondId") = some bid)
    (h4 : pyInt (pyGet data "amount") = some amt) :
    purchase_bond true true ch acct data =
      (match runTx ch acct (ContractFn.purchaseBond bid amt) with
       | (Except.error resp, tr) => (resp, tr)
       | (Except.ok (hs, _), tr) =>
           (⟨200, [("message", PyVal.str "Bond purchased successfully"),
                   ("tx_hash", PyVal.str hs),
                   ("bondId", PyVal.int bid),
                   ("amount", PyVal.int amt)]⟩, tr)) := by
  simp [purchase_bond, h1, h2, h3, h4]

theorem redeem_bond_validated (ch : Chain) (acct : String) (data : ReqBody)
    (bid amt : Int)
    (h1 : pyGet data "bondId" ≠ PyVal.none)
    (h2 : pyGet data "amount" ≠ PyVal.none)
    (h3 : pyInt (pyGet data "bondId") = some bid)
    (h4 : pyInt (pyGet data "amount") = some amt) :
    redeem_bond true true ch acct data =
      (match runTx ch acct (ContractFn.redeemBond bid amt) with
       | (Except.error resp, tr) => (resp, tr)
       | (Except.ok (hs, _), tr) =>
           (⟨200, [("message", PyVal.str "Bond redeemed successfully"),
                   ("tx_hash", PyVal.str hs),
                   ("bondId", PyVal.int bid),
                   ("amount", PyVal.int amt)]⟩, tr)) := by
  simp [redeem_bond, h1, h2, h3, h4]

theorem sell_bond_validated (ch : Chain) (acct : String) (data : ReqBody)
    (bid amt : Int) (buyer : String)
    (h1 : pyGet data "bondId" ≠ PyVal.none)
    (h2 : pyGet data "amount" ≠ PyVal.none)
    (h2b : truthy (pyGet data "buyerAddress") = true)
    (h3 : pyInt (pyGet data "bondId") = some bid)
    (h4 : pyInt (pyGet data "amount") = some amt)
    (h5 : ch.to_checksum_address (pyGet data "buyerAddress") = some buyer) :
    sell_bond true true ch acct data =
      (match runTx ch acct (ContractFn.sellBond bid amt buyer) with
       | (Except.error resp, tr) => (resp, tr)
       | (Except.ok (hs, _), tr) =>
           (⟨200, [("message", PyVal.str "Bond sold successfully"),
                   ("tx_hash", PyVal.str hs),
                   ("bondId", PyVal.int bid),
                   ("amount", PyVal.int amt),
                   ("buyerAddress", PyVal.str buyer)]⟩, tr)) := by
  simp [sell_bond, h1, h2, h2b, h3, h4, h5]

theorem issue_bond_validated (ch : Chain) (acct : String) (data : ReqBody)
    (fv md ir sp : Int)
    (hn : truthy (pyGet data "name") = true)
    (hi : truthy (pyGet data "issuer") = true)
    (hf : pyGet data "faceValue" ≠ PyVal.none)
    (hm : pyGet data "maturityDate" ≠ PyVal.none)
    (hr : pyGet data "interestRate" ≠ PyVal.none)
    (hs : pyGet data "supply" ≠ PyVal.none)
    (pf : pyInt (pyGet data "faceValue") = some fv)
    (pm : pyInt (pyGet data "maturityDate") = some md)
    (pr : pyInt (pyGet data "interestRate") = some ir)
    (ps : pyInt (pyGet data "supply") = some sp) :
    issue_bond true true ch acct data =
      (match runTx ch acct (ContractFn.issueBond (pyGet data "name")
          (pyGet data "issuer") fv md ir sp) with
       | (Except.error resp, tr) => (resp, tr)
       | (Except.ok (hsh, rcpt), tr) =>
           (⟨201, [("message", PyVal.str "Bond issued successfully"),
                   ("tx_hash", PyVal.str hsh),
                   ("bondId", (decodeAttempts rcpt.logs).2)]⟩,
            tr ++ (decodeAttempts rcpt.logs).1)) := by
  simp [issue_bond, hn, hi, hf, hm, hr, hs, pf, pm, pr, ps]

/-- A blockchain behaviour on which every call succeeds: gas estimate 21000,
hash `0xabcd` in HexBytes form, receipt with success status and one decodable
BondIssued log carrying bondId 42.  Used to evaluate the theorems on concrete
requests. -/
def okChain : Chain where
  estimate_gas := fun _ _ => Except.ok 21000
  transact := fun _ _ _ => Except.ok (TxHash.hexBytes [171, 205])
  wait_for_transaction_receipt := fun _ => Except.ok ⟨1, [⟨some 42⟩]⟩
  to_checksum_address := fun v =>
    match v with
    | PyVal.str s => some s
    | _ => Option.none

/-- A blockchain behaviour whose submitted transaction is mined with a failure
status (receipt status 0). -/
def revChain : Chain where
  estimate_gas := fun _ _ => Except.ok 21000
  transact := fun _ _ _ => Except.ok (TxHash.raw [18, 52])
  wait_for_transaction_receipt := fun _ => Except.ok ⟨0, []⟩
  to_checksum_address := fun v =>
    match v with
    | PyVal.str s => some s
    | _ => Option.none

/-- C1: for every request to one of the four mutating endpoints that reaches
the contract-call stage, the bound contract function is built exactly once
with positional arguments in the declared interface order, and the blockchain
calls then happen in the literal order estimate gas, submit transaction, wait
for receipt, with the receipt wait the last blockchain call made.  Each
conjunct covers one endpoint; the trace is exact for purchase/sell/redeem,
and for issue every entry after the receipt wait is a local log-decode
attempt — in particular never a call-object build (so the function is built
exactly once) and never a blockchain call (so the receipt wait is the last
one). -/
theorem mutating_endpoints_call_order :
    (∀ (ch : Chain) (acct : String) (data : ReqBody) (fv md ir sp : Int)
        (g : Nat) (h : TxHash),
      truthy (pyGet data "name") = true →
      truthy (pyGet data "issuer") = true →
      pyGet data "faceValue" ≠ PyVal.none →
      pyGet data "maturityDate" ≠ PyVal.none →
      pyGet data "interestRate" ≠ PyVal.none →
      pyGet data "supply" ≠ PyVal.none →
      pyInt (pyGet data "faceValue") = some fv →
      pyInt (pyGet data "maturityDate") = some md →
      pyInt (pyGet data "interestRate") = some ir →
      pyInt (pyGet data "supply") = some sp →
      ch.estimate_gas (ContractFn.issueBond (pyGet data "name")
        (pyGet data "issuer") fv md ir sp) acct = Except.ok g →
      ch.transact (ContractFn.issueBond (pyGet data "name")
        (pyGet data "issuer") fv md ir sp) acct g = Except.ok h →
      ∃ dtr, (issue_bond true true ch acct data).2 =
          [BCall.buildFn (ContractFn.issueBond (pyGet data "name")
             (pyGet data "issuer") fv md ir sp),
           BCall.estimateGas (ContractFn.issueBond (pyGet data "name")
             (pyGet data "issuer") fv md ir sp) acct,
           BCall.transact (ContractFn.issueBond (pyGet data "name")
             (pyGet data "issuer") fv md ir sp) acct g,
           BCall.waitForReceipt h] ++ dtr ∧
        (∀ c ∈ dtr, ∃ l, c = BCall.decodeLog l) ∧
        ∀ c ∈ dtr, isRpc c = false) ∧
    (∀ (ch : Chain) (acct : String) (data : ReqBody) (bid amt : Int)
        (g : Nat) (h : TxHash),
      pyGet data "bondId" ≠ PyVal.none →
      pyGet data "amount" ≠ PyVal.none →
      pyInt (pyGet data "bondId") = some bid →
      pyInt (pyGet data "amount") = some amt →
      ch.estimate_gas (ContractFn.purchaseBond bid amt) acct = Except.ok g →
      ch.transact (ContractFn.purchaseBond bid amt) acct g = Except.ok h →
      (purchase_bond true true ch acct data).2 =
        [BCall.buildFn (ContractFn.purchaseBond bid amt),
         BCall.estimateGas (ContractFn.purchaseBond bid amt) acct,
         BCall.transact (ContractFn.purchaseBond bid amt) acct g,
         BCall.waitForReceipt h]) ∧
    (∀ (ch : Chain) (acct : String) (data : ReqBody) (bid amt : Int)
        (buyer : String) (g : Nat) (h : TxHash),
      pyGet data "bondId" ≠ PyVal.none →
      pyGet data "amount" ≠ PyVal.none →
      truthy (pyGet data "buyerAddress") = true →
      pyInt (pyGet data "bondId") = some bid →
      pyInt (pyGet data "amount") = some amt →
      ch.to_checksum_address (pyGet data "buyerAddress") = some buyer →
      ch.estimate_gas (ContractFn.sellBond bid amt buyer) acct = Except.ok g →
      ch.transact (ContractFn.sellBond bid amt buyer) acct g = Except.ok h →
      (sell_bond true true ch acct data).2 =
        [BCall.buildFn (ContractFn.sellBond bid amt buyer),
         BCall.estimateGas (ContractFn.sellBond bid amt buyer) acct,
         BCall.transact (ContractFn.sellBond bid amt buyer) acct g,
         BCall.waitForReceipt h]) ∧
    (∀ (ch : Chain) (acct : String) (data : ReqBody) (bid amt : Int)
        (g : Nat) (h : TxHash),
      pyGet data "bondId" ≠ PyVal.none →
      pyGet data "amount" ≠ PyVal.none →
      pyInt (pyGet data "bondId") = some bid →
      pyInt (pyGet data "amount") = some amt →
      ch.estimate_gas (ContractFn.redeemBond bid amt) acct = Except.ok g →
      ch.transact (ContractFn.redeemBond bid amt) acct g = Except.ok h →
      (redeem_bond true true ch acct data).2 =
        [BCall.buildFn (ContractFn.redeemBond bid amt),
         BCall.estimateGas (ContractFn.redeemBond bid amt) acct,
         BCall.transact (ContractFn.redeemBond bid amt) acct g,
         BCall.waitForReceipt h]) := by
  refine ⟨?_, ?_, ?_, ?_⟩
  · intro ch acct data fv md ir sp g h hn hi hf hm hr hs pf pm pr ps hest htx
    rw [issue_bond_validated ch acct data fv md ir sp hn hi hf hm hr hs pf pm pr ps]
    have htr := runTx_trace ch acct (ContractFn.issueBond (pyGet data "name")
      (pyGet data "issuer") fv md ir sp) g h hest htx
    rcases hRT : runTx ch acct (ContractFn.issueBond (pyGet data "name")
      (pyGet data "issuer") fv md ir sp) with ⟨res, tr⟩
    rw [hRT] at htr
    dsimp only at htr
    cases res with
    | error resp =>
        refine ⟨[], ?_, ?_⟩
        · simpa using htr
        · exact ⟨fun c hc => absurd hc (List.not_mem_nil c),
            fun c hc => absurd hc (List.not_mem_nil c)⟩
    | ok pr2 =>
        rcases pr2 with ⟨hsh, rcpt⟩
        refine ⟨(decodeAttempts rcpt.logs).1, ?_, ?_⟩
        · show tr ++ (decodeAttempts rcpt.logs).1 = _
          rw [htr]
        · exact ⟨decodeAttempts_fst_only_decodes _, decodeAttempts_fst_no_rpc _⟩
  · intro ch acct data bid amt g h h1 h2 h3 h4 hest htx
    rw [purchase_bond_validated ch acct data bid amt h1 h2 h3 h4]
    have htr := runTx_trace ch acct (ContractFn.purchaseBond bid amt) g h hest htx
    rcases hRT : runTx ch acct (ContractFn.purchaseBond bid amt) with ⟨res, tr⟩
    rw [hRT] at htr
    cases res with
    | error resp => simpa using htr
    | ok pr2 => rcases pr2 with ⟨hsh, rcpt⟩; simpa using htr
  · intro ch acct data bid amt buyer g h h1 h2 h2b h3 h4 h5 hest htx
    rw [sell_bond_validated ch acct data bid amt buyer h1 h2 h2b h3 h4 h5]
    have htr := runTx_trace ch acct (ContractFn.sellBond bid amt buyer) g h hest htx
    rcases hRT : runTx ch acct (ContractFn.sellBond bid amt buyer) with ⟨res, tr⟩
    rw [hRT] at htr
    cases res with
    | error resp => simpa using htr
    | ok pr2 => rcases pr2 with ⟨hsh, rcpt⟩; simpa using htr
  · intro ch acct data bid amt g h h1 h2 h3 h4 hest htx
    rw [redeem_bond_validated ch acct data bid amt h1 h2 h3 h4]
    have htr := runTx_trace ch acct (ContractFn.redeemBond bid amt) g h hest htx
    rcases hRT : runTx ch acct (ContractFn.redeemBond bid amt) with ⟨res, tr⟩
    rw [hRT] at htr
    cases res with
    | error resp => simpa using htr
    | ok pr2 => rcases pr2 with ⟨hsh, rcpt⟩; simpa using htr

/-- Witness for C1: a concrete /bond/purchase request on `okChain` makes
exactly the four interactions, with the receipt wait last. -/
theorem mutating_endpoints_call_order_witness :
    (purchase_bond true true okChain "0xOwner"
        [("bondId", PyVal.int 7), ("amount", PyVal.int 3)]).2 =
      [BCall.buildFn (ContractFn.purchaseBond 7 3),
       BCall.estimateGas (ContractFn.purchaseBond 7 3) "0xOwner",
       BCall.transact (ContractFn.purchaseBond 7 3) "0xOwner" 21000,
       BCall.waitForReceipt (TxHash.hexBytes [171, 205])] :=
  mutating_endpoints_call_order.2.1 okChain "0xOwner"
    [("bondId", PyVal.int 7), ("amount", PyVal.int 3)] 7 3 21000
    (TxHash.hexBytes [171, 205]) (by decide) (by decide) rfl rfl rfl rfl

/-- C2: for every mutating-endpoint request whose submitted transaction
yields a receipt with status other than success, the handler returns a 500
response with an error body and makes no further contract interactions after
reading that receipt: the trace ends at the receipt wait (in particular no
log-decode attempt happens) and no success response is produced. -/
theorem reverted_receipt_yields_500 :
    (∀ (ch : Chain) (acct : String) (data : ReqBody) (fv md ir sp : Int)
        (g : Nat) (h : TxHash) (r : Receipt),
      truthy (pyGet data "name") = true →
      truthy (pyGet data "issuer") = true →
      pyGet data "faceValue" ≠ PyVal.none →
      pyGet data "maturityDate" ≠ PyVal.none →
      pyGet data "interestRate" ≠ PyVal.none →
      pyGet data "supply" ≠ PyVal.none →
      pyInt (pyGet data "faceValue") = some fv →
      pyInt (pyGet data "maturityDate") = some md →
      pyInt (pyGet data "interestRate") = some ir →
      pyInt (pyGet data "supply") = some sp →
      ch.estimate_gas (ContractFn.issueBond (pyGet data "name")
        (pyGet data "issuer") fv md ir sp) acct = Except.ok g →
      ch.transact (ContractFn.issueBond (pyGet data "name")
        (pyGet data "issuer") fv md ir sp) acct g = Except.ok h →
      ch.wait_for_transaction_receipt h = Except.ok r →
      r.status ≠ 1 →
      issue_bond true true ch acct data =
        (⟨500, [("error", PyVal.str "Transaction failed on blockchain")]⟩,
         [BCall.buildFn (ContractFn.issueBond (pyGet data "name")
            (pyGet data "issuer") fv md ir sp),
          BCall.estimateGas (ContractFn.issueBond (pyGet data "name")
            (pyGet data "issuer") fv md ir sp) acct,
          BCall.transact (ContractFn.issueBond (pyGet data "name")
            (pyGet data "issuer") fv md ir sp) acct g,
          BCall.waitForReceipt h])) ∧
    (∀ (ch : Chain) (acct : String) (data : ReqBody) (bid amt : Int)
        (g : Nat) (h : TxHash) (r : Receipt),
      pyGet data "bondId" ≠ PyVal.none →
      pyGet data "amount" ≠ PyVal.none →
      pyInt (pyGet data "bondId") = some bid →
      pyInt (pyGet data "amount") = some amt →
      ch.estimate_gas (ContractFn.purchaseBond bid amt) acct = Except.ok g →
      ch.transact (ContractFn.purchaseBond bid amt) acct g = Except.ok h →
      ch.wait_for_transaction_receipt h = Except.ok r →
      r.status ≠ 1 →
      purchase_bond true true ch acct data =
        (⟨500, [("error", PyVal.str "Transaction failed on blockchain")]⟩,
         [BCall.buildFn (ContractFn.purchaseBond bid amt),
          BCall.estimateGas (ContractFn.purchaseBond bid amt) acct,
          BCall.transact (ContractFn.purchaseBond bid amt) acct g,
          BCall.waitForReceipt h])) ∧
    (∀ (ch : Chain) (acct : String) (data : ReqBody) (bid amt : Int)
        (buyer : String) (g : Nat) (h : TxHash) (r : Receipt),
      pyGet data "bondId" ≠ PyVal.none →
      pyGet data "amount" ≠ PyVal.none →
      truthy (pyGet data "buyerAddress") = true →
      pyInt (pyGet data "bondId") = some bid →
      pyInt (pyGet data "amount") = some amt →
      ch.to_checksum_address (pyGet data "buyerAddress") = some buyer →
      ch.estimate_gas (ContractFn.sellBond bid amt buyer) acct = Except.ok g →
      ch.transact (ContractFn.sellBond bid amt buyer) acct g = Except.ok h →
      ch.wait_for_transaction_receipt h = Except.ok r →
      r.status ≠ 1 →
      sell_bond true true ch acct data =
        (⟨500, [("error", PyVal.str "Transaction failed on blockchain")]⟩,
         [BCall.buildFn (ContractFn.sellBond bid amt buyer),
          BCall.estimateGas (ContractFn.sellBond bid amt buyer) acct,
          BCall.transact (ContractFn.sellBond bid amt buyer) acct g,
          BCall.waitForReceipt h])) ∧
    (∀ (ch : Chain) (acct : String) (data : ReqBody) (bid amt : Int)
        (g : Nat) (h : TxHash) (r : Receipt),
      pyGet data "bondId" ≠ PyVal.none →
      pyGet data "amount" ≠ PyVal.none →
      pyInt (pyGet data "bondId") = some bid →
      pyInt (pyGet data "amount") = some amt →
      ch.estimate_gas (ContractFn.redeemBond bid amt) acct = Except.ok g →
      ch.transact (ContractFn.redeemBond bid amt) acct g = Except.ok h →
      ch.wait_for_transaction_receipt h = Except.ok r →
      r.status ≠ 1 →
      redeem_bond true true ch acct data =
        (⟨500, [("error", PyVal.str "Transaction failed on blockchain")]⟩,
         [BCall.buildFn (ContractFn.redeemBond bid amt),
          BCall.estimateGas (ContractFn.redeemBond bid amt) acct,
          BCall.transact (ContractFn.redeemBond bid amt) acct g,
          BCall.waitForReceipt h])) := by
  refine ⟨?_, ?_, ?_, ?_⟩
  · intro ch acct data fv md ir sp g h r hn hi hf hm hrr hs pf pm pr ps hest htx hw hst
    rw [issue_bond_validated ch acct data fv md ir sp hn hi hf hm hrr hs pf pm pr ps,
        runTx_reverted ch acct _ g h r hest htx hw hst]
    rfl
  · intro ch acct data bid amt g h r h1 h2 h3 h4 hest htx hw hst
    rw [purchase_bond_validated ch acct data bid amt h1 h2 h3 h4,
        runTx_reverted ch acct _ g h r hest htx hw hst]
    rfl
  · intro ch acct data bid amt buyer g h r h1 h2 h2b h3 h4 h5 hest htx hw hst
    rw [sell_bond_validated ch acct data bid amt buyer h1 h2 h2b h3 h4 h5,
        runTx_reverted ch acct _ g h r hest htx hw hst]
    rfl
  · intro ch acct data bid amt g h r h1 h2 h3 h4 hest htx hw hst
    rw [redeem_bond_validated ch acct data bid amt h1 h2 h3 h4,
        runTx_reverted ch acct _ g h r hest htx hw hst]
    rfl

/-- Witness for C2: a concrete /bond/redeem request on `revChain` (receipt
status 0) yields the 500 revert response with the trace ending at the receipt
wait. -/
theorem reverted_receipt_yields_500_witness :
    redeem_bond true true revChain "0xOwner"
        [("bondId", PyVal.int 7), ("amount", PyVal.int 3)] =
      (⟨500, [("error", PyVal.str "Transaction failed on blockchain")]⟩,
       [BCall.buildFn (ContractFn.redeemBond 7 3),
        BCall.estimateGas (ContractFn.redeemBond 7 3) "0xOwner",
        BCall.transact (ContractFn.redeemBond 7 3) "0xOwner" 21000,
        BCall.waitForReceipt (TxHash.raw [18, 52])]) :=
  reverted_receipt_yields_500.2.2.2 revChain "0xOwner"
    [("bondId", PyVal.int 7), ("amount", PyVal.int 3)] 7 3 21000
    (TxHash.raw [18, 52]) ⟨0, []⟩ (by decide) (by decide) rfl rfl rfl rfl rfl
    (by decide)

/-- C3: for every request to a mutating endpoint with a live connection whose
body is missing at least one required field, the handler returns a 400 error
response and performs zero contract interactions (empty trace: no call-object
build, no gas estimation, no submission). -/
theorem missing_field_yields_400 :
    (∀ (ch : Chain) (acct : String) (data : ReqBody),
      (pyGet data "name" = PyVal.none ∨ pyGet data "issuer" = PyVal.none ∨
       pyGet data "faceValue" = PyVal.none ∨ pyGet data "maturityDate" = PyVal.none ∨
       pyGet data "interestRate" = PyVal.none ∨ pyGet data "supply" = PyVal.none) →
      issue_bond true true ch acct data =
        (⟨400, [("error", PyVal.str "Missing required parameters")]⟩, [])) ∧
    (∀ (ch : Chain) (acct : String) (data : ReqBody),
      (pyGet data "bondId" = PyVal.none ∨ pyGet data "amount" = PyVal.none) →
      purchase_bond true true ch acct data =
        (⟨400, [("error", PyVal.str "Missing required parameters")]⟩, [])) ∧
    (∀ (ch : Chain) (acct : String) (data : ReqBody),
      (pyGet data "bondId" = PyVal.none ∨ pyGet data "amount" = PyVal.none ∨
       pyGet data "buyerAddress" = PyVal.none) →
      sell_bond true true ch acct data =
        (⟨400, [("error", PyVal.str "Missing required parameters")]⟩, [])) ∧
    (∀ (ch : Chain) (acct : String) (data : ReqBody),
      (pyGet data "bondId" = PyVal.none ∨ pyGet data "amount" = PyVal.none) →
      redeem_bond true true ch acct data =
        (⟨400, [("error", PyVal.str "Missing required parameters")]⟩, [])) := by
  refine ⟨?_, ?_, ?_, ?_⟩
  · intro ch acct data hmiss
    rcases hmiss with h | h | h | h | h | h <;>
      simp [issue_bond, h, truthy, missingParamsResp]
  · intro ch acct data hmiss
    rcases hmiss with h | h <;> simp [purchase_bond, h, missingParamsResp]
  · intro ch acct data hmiss
    rcases hmiss with h | h | h <;> simp [sell_bond, h, truthy, missingParamsResp]
  · intro ch acct data hmiss
    rcases hmiss with h | h <;> simp [redeem_bond, h, missingParamsResp]

/-- Witness for C3: a /bond/purchase request with an empty body gets the 400
response with an empty interaction trace. -/
theorem missing_field_yields_400_witness :
    purchase_bond true true okChain "0xOwner" [] =
      (⟨400, [("error", PyVal.str "Missing required parameters")]⟩, []) :=
  missing_field_yields_400.2.1 okChain "0xOwner" [] (Or.inl rfl)

/-- Counterexample to C4 as stated: a /bond/purchase request with a live
connection and a malformed numeric field (`bondId = "abc"`) does NOT get a 400
ValidationError; the `ValueError` raised by `int()` escapes to the handler's
outer `except` clause, which returns a 500 (src/api/app.py lines 339 and
369-371).  No contract interaction occurs. -/
theorem malformed_numeric_not_400 :
    (purchase_bond true true okChain "0xOwner"
        [("bondId", PyVal.str "abc"), ("amount", PyVal.int 1)]).1.status = 500 ∧
    (purchase_bond true true okChain "0xOwner"
        [("bondId", PyVal.str "abc"), ("amount", PyVal.int 1)]).1.status ≠ 400 ∧
    (purchase_bond true true okChain "0xOwner"
        [("bondId", PyVal.str "abc"), ("amount", PyVal.int 1)]).2 = [] :=
  ⟨rfl, by decide, rfl⟩

/-- C4 amended: for every request to a mutating endpoint in which the required
numeric fields are present but at least one is not coercible to an integer,
the response is HTTP 500 with an error body (the `int()` exception is handled
by the outer `except`, not by the 400 validation branch), and no contract
interaction occurs. -/
theorem malformed_numeric_yields_500 :
    (∀ (ch : Chain) (acct : String) (data : ReqBody),
      truthy (pyGet data "name") = true →
      truthy (pyGet data "issuer") = true →
      pyGet data "faceValue" ≠ PyVal.none →
      pyGet data "maturityDate" ≠ PyVal.none →
      pyGet data "interestRate" ≠ PyVal.none →
      pyGet data "supply" ≠ PyVal.none →
      (pyInt (pyGet data "faceValue") = Option.none ∨
       pyInt (pyGet data "maturityDate") = Option.none ∨
       pyInt (pyGet data "interestRate") = Option.none ∨
       pyInt (pyGet data "supply") = Option.none) →
      ∃ msg, issue_bond true true ch acct data =
        (⟨500, [("error", PyVal.str msg)]⟩, [])) ∧
    (∀ (ch : Chain) (acct : String) (data : ReqBody),
      pyGet data "bondId" ≠ PyVal.none →
      pyGet data "amount" ≠ PyVal.none →
      (pyInt (pyGet data "bondId") = Option.none ∨
       pyInt (pyGet data "amount") = Option.none) →
      ∃ msg, purchase_bond true true ch acct data =
        (⟨500, [("error", PyVal.str msg)]⟩, [])) ∧
    (∀ (ch : Chain) (acct : String) (data : ReqBody),
      pyGet data "bondId" ≠ PyVal.none →
      pyGet data "amount" ≠ PyVal.none →
      truthy (pyGet data "buyerAddress") = true →
      (pyInt (pyGet data "bondId") = Option.none ∨
       pyInt (pyGet data "amount") = Option.none) →
      ∃ msg, sell_bond true true ch acct data =
        (⟨500, [("error", PyVal.str msg)]⟩, [])) ∧
    (∀ (ch : Chain) (acct : String) (data : ReqBody),
      pyGet data "bondId" ≠ PyVal.none →
      pyGet data "amount" ≠ PyVal.none →
      (pyInt (pyGet data "bondId") = Option.none ∨
       pyInt (pyGet data "amount") = Option.none) →
      ∃ msg, redeem_bond true true ch acct data =
        (⟨500, [("error", PyVal.str msg)]⟩, [])) := by
  refine ⟨?_, ?_, ?_, ?_⟩
  · intro ch acct data hn hi hf hm hr hs hbad
    cases pf : pyInt (pyGet data "faceValue") with
    | none =>
        exact ⟨pyIntErrMsg (pyGet data "faceValue"),
          by simp [issue_bond, hn, hi, hf, hm, hr, hs, pf, valueErrorResp]⟩
    | some fv =>
      cases pm : pyInt (pyGet data "maturityDate") with
      | none =>
          exact ⟨pyIntErrMsg (pyGet data "maturityDate"),
            by simp [issue_bond, hn, hi, hf, hm, hr, hs, pf, pm, valueErrorResp]⟩
      | some md =>
        cases pr : pyInt (pyGet data "interestRate") with
        | none =>
            exact ⟨pyIntErrMsg (pyGet data "interestRate"),
              by simp [issue_bond, hn, hi, hf, hm, hr, hs, pf, pm, pr, valueErrorResp]⟩
        | some ir =>
          cases ps : pyInt (pyGet data "supply") with
          | none =>
              exact ⟨pyIntErrMsg (pyGet data "supply"),
                by simp [issue_bond, hn, hi, hf, hm, hr, hs, pf, pm, pr, ps, valueErrorResp]⟩
          | some sp =>
              rw [pf, pm, pr, ps] at hbad
              rcases hbad with h | h | h | h <;> cases h
  · intro ch acct data h1 h2 hbad
    cases h3 : pyInt (pyGet data "bondId") with
    | none =>
        exact ⟨pyIntErrMsg (pyGet data "bondId"),
          by simp [purchase_bond, h1, h2, h3, valueErrorResp]⟩
    | some bid =>
      cases h4 : pyInt (pyGet data "amount") with
      | none =>
          exact ⟨pyIntErrMsg (pyGet data "amount"),
            by simp [purchase_bond, h1, h2, h3, h4, valueErrorResp]⟩
      | some amt =>
          rw [h3, h4] at hbad
          rcases hbad with h | h <;> cases h
  · intro ch acct data h1 h2 h2b hbad
    cases h3 : pyInt (pyGet data "bondId") with
    | none =>
        exact ⟨pyIntErrMsg (pyGet data "bondId"),
          by simp [sell_bond, h1, h2, h2b, h3, valueErrorResp]⟩
    | some bid =>
      cases h4 : pyInt (pyGet data "amount") with
      | none =>
          exact ⟨pyIntErrMsg (pyGet data "amount"),
            by simp [sell_bond, h1, h2, h2b, h3, h4, valueErrorResp]⟩
      | some amt =>
          rw [h3, h4] at hbad
          rcases hbad with h | h <;> cases h
  · intro ch acct data h1 h2 hbad
    cases h3 : pyInt (pyGet data "bondId") with
    | none =>
        exact ⟨pyIntErrMsg (pyGet data "bondId"),
          by simp [redeem_bond, h1, h2, h3, valueErrorResp]⟩
    | some bid =>
      cases h4 : pyInt (pyGet data "amount") with
      | none =>
          exact ⟨pyIntErrMsg (pyGet data "amount"),
            by simp [redeem_bond, h1, h2, h3, h4, valueErrorResp]⟩
      | some amt =>
          rw [h3, h4] at hbad
          rcases hbad with h | h <;> cases h

/-- Witness for the amended C4: the concrete malformed request gets a 500
with an error body and an empty trace. -/
theorem malformed_numeric_yields_500_witness :
    ∃ msg, purchase_bond true true okChain "0xOwner"
        [("bondId", PyVal.str "abc"), ("amount", PyVal.int 1)] =
      (⟨500, [("error", PyVal.str msg)]⟩, []) :=
  malformed_numeric_yields_500.2.1 okChain "0xOwner"
    [("bondId", PyVal.str "abc"), ("amount", PyVal.int 1)]
    (by decide) (by decide) (Or.inl (by decide))

/-- C5: a /bond/issue request in which faceValue, maturityDate, interestRate
and supply are all present with value zero (alongside truthy name and issuer)
passes field validation — the presence check on the four numeric fields is
`is not None`, not truthiness — so the handler builds the call object (with
the zeros as arguments) instead of returning the 400 validation response. -/
theorem zero_numeric_fields_pass_validation :
    ∀ (ch : Chain) (acct : String) (data : ReqBody),
      truthy (pyGet data "name") = true →
      truthy (pyGet data "issuer") = true →
      pyGet data "faceValue" = PyVal.int 0 →
      pyGet data "maturityDate" = PyVal.int 0 →
      pyGet data "interestRate" = PyVal.int 0 →
      pyGet data "supply" = PyVal.int 0 →
      (∃ rest, (issue_bond true true ch acct data).2 =
        BCall.buildFn (ContractFn.issueBond (pyGet data "name")
          (pyGet data "issuer") 0 0 0 0) :: rest) ∧
      (issue_bond true true ch acct data).1.status ≠ 400 := by
  intro ch acct data hn hi hf hm hr hs
  have hf' : pyGet data "faceValue" ≠ PyVal.none := by rw [hf]; intro h; cases h
  have hm' : pyGet data "maturityDate" ≠ PyVal.none := by rw [hm]; intro h; cases h
  have hr' : pyGet data "interestRate" ≠ PyVal.none := by rw [hr]; intro h; cases h
  have hs' : pyGet data "supply" ≠ PyVal.none := by rw [hs]; intro h; cases h
  have pf : pyInt (pyGet data "faceValue") = some 0 := by rw [hf]; rfl
  have pm : pyInt (pyGet data "maturityDate") = some 0 := by rw [hm]; rfl
  have pr : pyInt (pyGet data "interestRate") = some 0 := by rw [hr]; rfl
  have ps : pyInt (pyGet data "supply") = some 0 := by rw [hs]; rfl
  rw [issue_bond_validated ch acct data 0 0 0 0 hn hi hf' hm' hr' hs' pf pm pr ps]
  have hbh := runTx_build_head ch acct
    (ContractFn.issueBond (pyGet data "name") (pyGet data "issuer") 0 0 0 0)
  rcases hRT : runTx ch acct
      (ContractFn.issueBond (pyGet data "name") (pyGet data "issuer") 0 0 0 0)
    with ⟨res, tr⟩
  rw [hRT] at hbh
  dsimp only at hbh
  rcases hbh with ⟨rest, hrest⟩
  cases res with
  | error resp =>
      constructor
      · exact ⟨rest, by simpa using hrest⟩
      · have h500 : resp.status = 500 := by
          apply runTx_error_status ch acct
            (ContractFn.issueBond (pyGet data "name") (pyGet data "issuer") 0 0 0 0)
          rw [hRT]
        simp [h500]
  | ok pr2 =>
      rcases pr2 with ⟨hsh, rcpt⟩
      constructor
      · refine ⟨rest ++ (decodeAttempts rcpt.logs).1, ?_⟩
        show tr ++ (decodeAttempts rcpt.logs).1 = _
        rw [hrest]
        rfl
      · show (201 : Nat) ≠ 400
        decide

/-- Witness for C5: a concrete issue request with all four numeric fields
equal to zero reaches the contract-call stage. -/
theorem zero_numeric_fields_pass_validation_witness :
    (∃ rest, (issue_bond true true okChain "0xOwner"
        [("name", PyVal.str "T-Bond"), ("issuer", PyVal.str "UST"),
         ("faceValue", PyVal.int 0), ("maturityDate", PyVal.int 0),
         ("interestRate", PyVal.int 0), ("supply", PyVal.int 0)]).2 =
      BCall.buildFn (ContractFn.issueBond (PyVal.str "T-Bond")
        (PyVal.str "UST") 0 0 0 0) :: rest) ∧
    (issue_bond true true okChain "0xOwner"
        [("name", PyVal.str "T-Bond"), ("issuer", PyVal.str "UST"),
         ("faceValue", PyVal.int 0), ("maturityDate", PyVal.int 0),
         ("interestRate", PyVal.int 0), ("supply", PyVal.int 0)]).1.status ≠ 400 :=
  zero_numeric_fields_pass_validation okChain "0xOwner"
    [("name", PyVal.str "T-Bond"), ("issuer", PyVal.str "UST"),
     ("faceValue", PyVal.int 0), ("maturityDate", PyVal.int 0),
     ("interestRate", PyVal.int 0), ("supply", PyVal.int 0)]
    (by decide) (by decide) (by decide) (by decide) (by decide) (by decide)

/-- C6: a successful /bond/issue request scans the receipt's logs in order,
attempts to decode each as BondIssued, and answers the bondId of the first
entry that decodes (`bondIdOf` via `List.findSome?`); when the receipt has no
logs, or no log decodes, the response bondId is the sentinel string
`"Unknown"` and the response is still a 201 success. -/
theorem issue_bondId_from_first_decoded_log :
    (∀ (ch : Chain) (acct : String) (data : ReqBody) (fv md ir sp : Int)
        (g : Nat) (h : TxHash) (r : Receipt),
      truthy (pyGet data "name") = true →
      truthy (pyGet data "issuer") = true →
      pyGet data "faceValue" ≠ PyVal.none →
      pyGet data "maturityDate" ≠ PyVal.none →
      pyGet data "interestRate" ≠ PyVal.none →
      pyGet data "supply" ≠ PyVal.none →
      pyInt (pyGet data "faceValue") = some fv →
      pyInt (pyGet data "maturityDate") = some md →
      pyInt (pyGet data "interestRate") = some ir →
      pyInt (pyGet data "supply") = some sp →
      ch.estimate_gas (ContractFn.issueBond (pyGet data "name")
        (pyGet data "issuer") fv md ir sp) acct = Except.ok g →
      ch.transact (ContractFn.issueBond (pyGet data "name")
        (pyGet data "issuer") fv md ir sp) acct g = Except.ok h →
      ch.wait_for_transaction_receipt h = Except.ok r →
      r.status = 1 →
      (issue_bond true true ch acct data).1 =
        ⟨201, [("message", PyVal.str "Bond issued successfully"),
               ("tx_hash", PyVal.str (txHashStr h)),
               ("bondId", bondIdOf r.logs)]⟩) ∧
    bondIdOf [] = PyVal.str "Unknown" ∧
    (∀ logs : List LogEntry,
      logs.findSome? (fun l => l.decodeBondIssued) = Option.none →
      bondIdOf logs = PyVal.str "Unknown") := by
  refine ⟨?_, rfl, ?_⟩
  · intro ch acct data fv md ir sp g h r hn hi hf hm hrr hs pf pm pr ps hest htx hw hst
    rw [issue_bond_validated ch acct data fv md ir sp hn hi hf hm hrr hs pf pm pr ps,
        runTx_ok ch acct _ g h r hest htx hw hst]
    show HttpResponse.mk 201 _ = _
    rw [decodeAttempts_snd]
  · intro logs hnone
    simp [bondIdOf, hnone]

/-- Witness for C6: on `okChain` (receipt with one decodable BondIssued log
carrying bondId 42) the concrete issue request answers 201 with bondId 42. -/
theorem issue_bondId_from_first_decoded_log_witness :
    (issue_bond true true okChain "0xOwner"
        [("name", PyVal.str "T-Bond"), ("issuer", PyVal.str "UST"),
         ("faceValue", PyVal.int 100), ("maturityDate", PyVal.int 1700000000),
         ("interestRate", PyVal.int 5), ("supply", PyVal.int 1000)]).1 =
      ⟨201, [("message", PyVal.str "Bond issued successfully"),
             ("tx_hash", PyVal.str "0xabcd"),
             ("bondId", PyVal.int 42)]⟩ :=
  issue_bondId_from_first_decoded_log.1 okChain "0xOwner"
    [("name", PyVal.str "T-Bond"), ("issuer", PyVal.str "UST"),
     ("faceValue", PyVal.int 100), ("maturityDate", PyVal.int 1700000000),
     ("interestRate", PyVal.int 5), ("supply", PyVal.int 1000)]
    100 1700000000 5 1000 21000 (TxHash.hexBytes [171, 205]) ⟨1, [⟨some 42⟩]⟩
    (by decide) (by decide) (by decide) (by decide) (by decide) (by decide)
    rfl rfl rfl rfl rfl rfl rfl rfl

/-- C7: for every successful mutating-endpoint request, the `tx_hash` field
of the JSON response is the normalized hash string, and that string is
lowercase hexadecimal whether the client returned the hash as raw bytes or as
a hex-object. -/
theorem tx_hash_lowercase_hex :
    (∀ (ch : Chain) (acct : String) (data : ReqBody) (fv md ir sp : Int)
        (g : Nat) (h : TxHash) (r : Receipt),
      truthy (pyGet data "name") = true →
      truthy (pyGet data "issuer") = true →
      pyGet data "faceValue" ≠ PyVal.none →
      pyGet data "maturityDate" ≠ PyVal.none →
      pyGet data "interestRate" ≠ PyVal.none →
      pyGet data "supply" ≠ PyVal.none →
      pyInt (pyGet data "faceValue") = some fv →
      pyInt (pyGet data "maturityDate") = some md →
      pyInt (pyGet data "interestRate") = some ir →
      pyInt (pyGet data "supply") = some sp →
      ch.estimate_gas (ContractFn.issueBond (pyGet data "name")
        (pyGet data "issuer") fv md ir sp) acct = Except.ok g →
      ch.transact (ContractFn.issueBond (pyGet data "name")
        (pyGet data "issuer") fv md ir sp) acct g = Except.ok h →
      ch.wait_for_transaction_receipt h = Except.ok r →
      r.status = 1 →
      List.lookup "tx_hash" (issue_bond true true ch acct data).1.body =
        some (PyVal.str (txHashStr h)) ∧
      isLowerHexString (txHashStr h) = true) ∧
    (∀ (ch : Chain) (acct : String) (data : ReqBody) (bid amt : Int)
        (g : Nat) (h : TxHash) (r : Receipt),
      pyGet data "bondId" ≠ PyVal.none →
      pyGet data "amount" ≠ PyVal.none →
      pyInt (pyGet data "bondId") = some bid →
      pyInt (pyGet data "amount") = some amt →
      ch.estimate_gas (ContractFn.purchaseBond bid amt) acct = Except.ok g →
      ch.transact (ContractFn.purchaseBond bid amt) acct g = Except.ok h →
      ch.wait_for_transaction_receipt h = Except.ok r →
      r.status = 1 →
      List.lookup "tx_hash" (purchase_bond true true ch acct data).1.body =
        some (PyVal.str (txHashStr h)) ∧
      isLowerHexString (txHashStr h) = true) ∧
    (∀ (ch : Chain) (acct : String) (data : ReqBody) (bid amt : Int)
        (buyer : String) (g : Nat) (h : TxHash) (r : Receipt),
      pyGet data "bondId" ≠ PyVal.none →
      pyGet data "amount" ≠ PyVal.none →
      truthy (pyGet data "buyerAddress") = true →
      pyInt (pyGet data "bondId") = some bid →
      pyInt (pyGet data "amount") = some amt →
      ch.to_checksum_address (pyGet data "buyerAddress") = some buyer →
      ch.estimate_gas (ContractFn.sellBond bid amt buyer) acct = Except.ok g →
      ch.transact (ContractFn.sellBond bid amt buyer) acct g = Except.ok h →
      ch.wait_for_transaction_receipt h = Except.ok r →
      r.status = 1 →
      List.lookup "tx_hash" (sell_bond true true ch acct data).1.body =
        some (PyVal.str (txHashStr h)) ∧
      isLowerHexString (txHashStr h) = true) ∧
    (∀ (ch : Chain) (acct : String) (data : ReqBody) (bid amt : Int)
        (g : Nat) (h : TxHash) (r : Receipt),
      pyGet data "bondId" ≠ PyVal.none →
      pyGet data "amount" ≠ PyVal.none →
      pyInt (pyGet data "bondId") = some bid →
      pyInt (pyGet data "amount") = some amt →
      ch.estimate_gas (ContractFn.redeemBond bid amt) acct = Except.ok g →
      ch.transact (ContractFn.redeemBond bid amt) acct g = Except.ok h →
      ch.wait_for_transaction_receipt h = Except.ok r →
      r.status = 1 →
      List.lookup "tx_hash" (redeem_bond true true ch acct data).1.body =
        some (PyVal.str (txHashStr h)) ∧
      isLowerHexString (txHashStr h) = true) := by
  refine ⟨?_, ?_, ?_, ?_⟩
  · intro ch acct data fv md ir sp g h r hn hi hf hm hrr hs pf pm pr ps hest htx hw hst
    refine ⟨?_, txHashStr_lowerHex h⟩
    rw [issue_bond_validated ch acct data fv md ir sp hn hi hf hm hrr hs pf pm pr ps,
        runTx_ok ch acct _ g h r hest htx hw hst]
    rfl
  · intro ch acct data bid amt g h r h1 h2 h3 h4 hest htx hw hst
    refine ⟨?_, txHashStr_lowerHex h⟩
    rw [purchase_bond_validated ch acct data bid amt h1 h2 h3 h4,
        runTx_ok ch acct _ g h r hest htx hw hst]
    rfl
  · intro ch acct data bid amt buyer g h r h1 h2 h2b h3 h4 h5 hest htx hw hst
    refine ⟨?_, txHashStr_lowerHex h⟩
    rw [sell_bond_validated ch acct data bid amt buyer h1 h2 h2b h3 h4 h5,
        runTx_ok ch acct _ g h r hest htx hw hst]
    rfl
  · intro ch acct data bid amt g h r h1 h2 h3 h4 hest htx hw hst
    refine ⟨?_, txHashStr_lowerHex h⟩
    rw [redeem_bond_validated ch acct data bid amt h1 h2 h3 h4,
        runTx_ok ch acct _ g h r hest htx hw hst]
    rfl

/-- Witness for C7: the concrete purchase request on `okChain` (hash returned
as a HexBytes-style object over bytes `[171, 205]`) answers tx_hash
`"0xabcd"`, which is lowercase hex. -/
theorem tx_hash_lowercase_hex_witness :
    List.lookup "tx_hash" (purchase_bond true true okChain "0xOwner"
        [("bondId", PyVal.int 7), ("amount", PyVal.int 3)]).1.body =
      some (PyVal.str "0xabcd") ∧
    isLowerHexString "0xabcd" = true :=
  tx_hash_lowercase_hex.2.1 okChain "0xOwner"
    [("bondId", PyVal.int 7), ("amount", PyVal.int 3)] 7 3 21000
    (TxHash.hexBytes [171, 205]) ⟨1, [⟨some 42⟩]⟩
    (by decide) (by decide) rfl rfl rfl rfl rfl rfl

/-- C8: `connect_to_blockchain` attempts the primary endpoint with a
30-second timeout; whenever the primary attempt fails (by the client
reporting not-connected, which is how the HTTP provider surfaces connection
failures and timeouts) it attempts the fallback endpoint with the same
30-second timeout; and when both attempts fail it returns the none value and
logs the cause.  The embedding is a total function — the Python body is
wrapped in a `try`/`except` returning `None`, so no exception reaches the
caller. -/
theorem connect_to_blockchain_fallback :
    ∀ (primary fallback : String) (isConn : ProviderCfg → Bool),
      ((connect_to_blockchain primary fallback isConn).2.1).head? =
        some ⟨primary, 30⟩ ∧
      (isConn ⟨primary, 30⟩ = false →
        (connect_to_blockchain primary fallback isConn).2.1 =
          [⟨primary, 30⟩, ⟨fallback, 30⟩]) ∧
      (isConn ⟨primary, 30⟩ = false → isConn ⟨fallback, 30⟩ = false →
        (connect_to_blockchain primary fallback isConn).1 = Option.none ∧
        "Blockchain connection error: Failed to connect to blockchain" ∈
          (connect_to_blockchain primary fallback isConn).2.2) := by
  intro primary fallback isConn
  by_cases hp : isConn ⟨primary, 30⟩
  · refine ⟨by simp [connect_to_blockchain, hp], ?_, ?_⟩
    · intro hf; rw [hp] at hf; cases hf
    · intro hf; rw [hp] at hf; cases hf
  · rw [Bool.not_eq_true] at hp
    by_cases hf : isConn ⟨fallback, 30⟩
    · refine ⟨by simp [connect_to_blockchain, hp, hf], ?_, ?_⟩
      · intro _; simp [connect_to_blockchain, hp, hf]
      · intro _ hf2; rw [hf] at hf2; cases hf2
    · rw [Bool.not_eq_true] at hf
      refine ⟨by simp [connect_to_blockchain, hp, hf], ?_, ?_⟩
      · intro _; simp [connect_to_blockchain, hp, hf]
      · intro _ _
        constructor
        · simp [connect_to_blockchain, hp, hf]
        · simp [connect_to_blockchain, hp, hf]

/-- Witness for C8: with both endpoints down, the result is none, both
endpoints were attempted with timeout 30, and the failure is logged. -/
theorem connect_to_blockchain_fallback_witness :
    (connect_to_blockchain "http://primary:8545" "http://127.0.0.1:8545"
        (fun _ => false)).1 = Option.none ∧
    (connect_to_blockchain "http://primary:8545" "http://127.0.0.1:8545"
        (fun _ => false)).2.1 =
      [⟨"http://primary:8545", 30⟩, ⟨"http://127.0.0.1:8545", 30⟩] ∧
    "Blockchain connection error: Failed to connect to blockchain" ∈
      (connect_to_blockchain "http://primary:8545" "http://127.0.0.1:8545"
        (fun _ => false)).2.2 :=
  ⟨((connect_to_blockchain_fallback "http://primary:8545" "http://127.0.0.1:8545"
      (fun _ => false)).2.2 rfl rfl).1,
   (connect_to_blockchain_fallback "http://primary:8545" "http://127.0.0.1:8545"
      (fun _ => false)).2.1 rfl,
   ((connect_to_blockchain_fallback "http://primary:8545" "http://127.0.0.1:8545"
      (fun _ => false)).2.2 rfl rfl).2⟩

/-- Counterexample to C9 as stated: the per-request ensure-connection step
does not keep the connection state in the two claimed shapes and does not
re-create the pair together.  Starting from a cached pair whose client
reports disconnection: (a) when reconnection fails, the state becomes
(none, binding) — neither a live pair nor (none, none); (b) when
reconnection succeeds, the old contract binding (5) is kept instead of being
re-created from the new client (which would give 11). -/
theorem connection_pair_invariant_fails :
    ensure_connection true (fun _ : Nat => false) Option.none
        (fun c : Nat => c + 10) ⟨some 0, some 5⟩ =
      (⟨Option.none, some 5⟩ : GState Nat Nat) ∧
    ¬ twoShaped (ensure_connection true (fun _ : Nat => false) Option.none
        (fun c : Nat => c + 10) (⟨some 0, some 5⟩ : GState Nat Nat)) ∧
    ensure_connection true (fun _ : Nat => false) (some 1)
        (fun c : Nat => c + 10) ⟨some 0, some 5⟩ =
      (⟨some 1, some 5⟩ : GState Nat Nat) := by
  refine ⟨rfl, ?_, rfl⟩
  intro h
  rcases h with ⟨h1, _⟩ | ⟨_, h2⟩
  · exact Bool.noConfusion h1
  · exact Bool.noConfusion h2

/-- C9 amended: the ensure-connection step replaces only the cached client
when it is absent or reports disconnection; an existing contract binding is
never replaced, and a binding is created (from the current client) only when
it is absent — so after a reconnect the old binding is retained, and a
failed reconnect can leave the state as (none, binding), outside the
two-shape invariant. -/
theorem ensure_connection_behaviour :
    ∀ (C K : Type) (is_conn : C → Bool) (cr : Option C) (mk : C → K)
      (st : GState C K),
      (∀ c, st.w3 = some c → is_conn c = false →
        (ensure_connection true is_conn cr mk st).w3 = cr) ∧
      (∀ c, st.w3 = some c → is_conn c = true →
        (ensure_connection true is_conn cr mk st).w3 = some c) ∧
      (st.w3 = Option.none →
        (ensure_connection true is_conn cr mk st).w3 = cr) ∧
      (∀ k, st.contract = some k →
        (ensure_connection true is_conn cr mk st).contract = some k) ∧
      (st.contract = Option.none →
        (ensure_connection true is_conn cr mk st).contract =
          Option.map mk (ensure_connection true is_conn cr mk st).w3) := by
  intro C K is_conn cr mk st
  rcases st with ⟨w3v, kv⟩
  refine ⟨?_, ?_, ?_, ?_, ?_⟩
  · intro c hc hdis
    subst hc
    simp [ensure_connection, hdis]
  · intro c hc hcon
    subst hc
    simp [ensure_connection, hcon]
  · intro hnone
    subst hnone
    simp [ensure_connection]
  · intro k hk
    subst hk
    cases w3v with
    | none => cases cr <;> simp [ensure_connection]
    | some c =>
        by_cases hic : is_conn c
        · simp [ensure_connection, hic]
        · cases cr <;> simp [ensure_connection, hic]
  · intro hk
    subst hk
    cases w3v with
    | none => cases cr <;> simp [ensure_connection]
    | some c =>
        by_cases hic : is_conn c
        · simp [ensure_connection, hic]
        · cases cr <;> simp [ensure_connection, hic]

/-- Witness for the amended C9: concrete instantiation — the cached client
(0) reports disconnection, reconnection yields client 1, and the old binding
5 is retained while the client is replaced. -/
theorem ensure_connection_behaviour_witness :
    (ensure_connection true (fun _ : Nat => false) (some 1)
        (fun c : Nat => c + 10) ⟨some 0, some 5⟩).w3 = some 1 ∧
    (ensure_connection true (fun _ : Nat => false) (some 1)
        (fun c : Nat => c + 10) (⟨some 0, some 5⟩ : GState Nat Nat)).contract =
      some 5 :=
  ⟨(ensure_connection_behaviour Nat Nat (fun _ => false) (some 1)
      (fun c => c + 10) ⟨some 0, some 5⟩).1 0 rfl rfl,
   (ensure_connection_behaviour Nat Nat (fun _ => false) (some 1)
      (fun c => c + 10) ⟨some 0, some 5⟩).2.2.2.1 5 rfl⟩

/-- C10: GET /status always answers HTTP 200; when no client is cached, or
the cached client's `is_connected` probe raises, the body reports
`blockchain_connected` as false rather than an error response. -/
theorem status_endpoint_always_200 :
    ∀ (w3Cached : Bool) (probe : ProbeResult) (contractCached : Bool)
      (addr : String),
      (get_api_status w3Cached probe contractCached addr).status = 200 ∧
      (w3Cached = false →
        List.lookup "blockchain_connected"
          (get_api_status w3Cached probe contractCached addr).body =
          some (PyVal.bool false)) ∧
      (probe = ProbeResult.raises →
        List.lookup "blockchain_connected"
          (get_api_status w3Cached probe contractCached addr).body =
          some (PyVal.bool false)) := by
  intro w3Cached probe contractCached addr
  refine ⟨rfl, ?_, ?_⟩
  · intro h
    subst h
    rfl
  · intro h
    subst h
    cases w3Cached <;> rfl

/-- Witness for C10: with a cached client whose probe raises, the status
endpoint answers 200 and reports the blockchain as not connected. -/
theorem status_endpoint_always_200_witness :
    (get_api_status true ProbeResult.raises true "0xC0DE").status = 200 ∧
    List.lookup "blockchain_connected"
      (get_api_status true ProbeResult.raises true "0xC0DE").body =
      some (PyVal.bool false) :=
  ⟨(status_endpoint_always_200 true ProbeResult.raises true "0xC0DE").1,
   (status_endpoint_always_200 true ProbeResult.raises true "0xC0DE").2.2 rfl⟩
